import Mathlib

/-!
Verification of the data-model layer of the NearEarthObjects repository
(src/models.py): the `NearEarthObject` and `CloseApproach` classes, their
constructors (normalization of loosely-typed raw record fields), derived
accessors (`fullname`, `time_str`) and serializers.

The Python code is shallowly embedded: Python runtime values are an
inductive `PyVal`; floats are the NaN sentinel or an exact decimal value
(the code only ever converts and stores floats, never does arithmetic on
them, so an exact decimal representation is observationally faithful);
dictionaries are insertion-ordered association lists; fallible operations
(the builtin `float`, the timestamp parser, the constructors) return
`Except String`.  Optional constructor arguments are `Option PyVal`
parameters where `Option.none` means the argument was not supplied at the
call site, in which case the Python default applies.
-/

/-- A Python float value as it occurs in this program: either the NaN
sentinel (`float('nan')`) or an exact decimal number `val m e` denoting
`m / 10 ^ e`.  models.py never performs float arithmetic — floats are only
produced by conversion from raw record fields and stored — so exact
decimals model every observable behaviour of the claims. -/
inductive PyFloat where
  | nan : PyFloat
  | val : Int → Nat → PyFloat
deriving DecidableEq, Repr

/-- The rational number denoted by a non-NaN float value. -/
def PyFloat.toRat : PyFloat → Option ℚ
  | PyFloat.nan => Option.none
  | PyFloat.val m e => Option.some ((m : ℚ) / (10 : ℚ) ^ e)

/-- Negation of a float (used for parsing a leading minus sign). -/
def PyFloat.neg : PyFloat → PyFloat
  | PyFloat.nan => PyFloat.nan
  | PyFloat.val m e => PyFloat.val (-m) e

/-- The Python runtime values that can reach the constructors of
models.py: `None`, strings, floats, booleans and integers. -/
inductive PyVal where
  | none : PyVal
  | str : String → PyVal
  | float : PyFloat → PyVal
  | bool : Bool → PyVal
  | int : Int → PyVal
deriving DecidableEq, Repr

/-- Python truthiness (`bool(v)`): `None` and the empty string are falsy,
zero numbers are falsy, NaN is truthy. -/
def pyTruthy : PyVal → Bool
  | PyVal.none => false
  | PyVal.str s => !s.isEmpty
  | PyVal.float f => match f with
    | PyFloat.nan => true
    | PyFloat.val m _ => m != 0
  | PyVal.bool b => b
  | PyVal.int n => n != 0

/-- Left-pad a string with zeros to the given width. -/
def padZero (w : Nat) (s : String) : String :=
  if s.length < w then String.mk (List.replicate (w - s.length) '0') ++ s else s

/-- Decimal rendering of `n / 10 ^ e` without sign: digits with a decimal
point inserted `e` places from the right, `.0` appended when `e = 0`. -/
def decimalString (n : Nat) (e : Nat) : String :=
  let s := padZero (e + 1) (toString n)
  if e = 0 then s ++ ".0"
  else s.take (s.length - e) ++ "." ++ s.drop (s.length - e)

/-- Rendering of a float by `str` and f-strings.  No claimed method of
models.py ever stringifies a float (serializers store floats raw), so this
renderer only needs to cover the plain decimal forms. -/
def pyFloatRepr : PyFloat → String
  | PyFloat.nan => "nan"
  | PyFloat.val m e => (if m < 0 then "-" else "") ++ decimalString m.natAbs e

/-- The Python builtin `str` on the modelled values:
`str(None) = "None"`, strings unchanged, booleans capitalized. -/
def pyStr : PyVal → String
  | PyVal.none => "None"
  | PyVal.str s => s
  | PyVal.float f => pyFloatRepr f
  | PyVal.bool b => if b then "True" else "False"
  | PyVal.int n => toString n

/-- Python `==` between a value and a string literal: true exactly when the
value is the same string; no non-string builtin value compares equal to a
string. -/
def pyEqStr (v : PyVal) (t : String) : Bool :=
  match v with
  | PyVal.str s => s == t
  | _ => false

/-- Value of a list of decimal digit characters, most significant first. -/
def digitsToNat (cs : List Char) : Nat :=
  cs.foldl (fun n c => n * 10 + (c.toNat - 48)) 0

/-- Whether every character of the list is a decimal digit. -/
def allDigits (cs : List Char) : Bool :=
  cs.all Char.isDigit

/-- Split a character list on a separator character; the result always has
one more group than there are separators. -/
def splitOnChar (sep : Char) : List Char → List (List Char)
  | [] => [[]]
  | c :: cs =>
    match splitOnChar sep cs with
    | [] => if c = sep then [[], []] else [[c]]
    | g :: gs => if c = sep then [] :: g :: gs else (c :: g) :: gs

/-- Strip whitespace from both ends of a character list. -/
def trimChars (cs : List Char) : List Char :=
  ((cs.dropWhile Char.isWhitespace).reverse.dropWhile Char.isWhitespace).reverse

/-- ASCII lowering of the letters appearing in the float token `nan` (the
only case-insensitive token of the modelled `float` subset). -/
def lowerNanChar (c : Char) : Char :=
  if c = 'N' then 'n' else if c = 'A' then 'a' else c

/-- Parse the body of a decimal literal (after the sign): digits with an
optional fractional part, at least one digit in total, or the token `nan`
in any letter case. -/
def parseDecimalChars (cs : List Char) : Option PyFloat :=
  if cs.map lowerNanChar = ['n', 'a', 'n'] then Option.some PyFloat.nan
  else
    match splitOnChar '.' cs with
    | [w] =>
      if !w.isEmpty && allDigits w then
        Option.some (PyFloat.val (digitsToNat w) 0)
      else Option.none
    | [w, f] =>
      if (!w.isEmpty || !f.isEmpty) && allDigits w && allDigits f then
        Option.some (PyFloat.val (digitsToNat (w ++ f)) f.length)
      else Option.none
    | _ => Option.none

/-- Parse a string accepted by the Python builtin `float`: optional
surrounding whitespace and sign around a decimal literal or `nan`.
(Python also accepts exponents, infinities and underscores; no input of
this data set or of the claims uses them, so those forms are not modelled
and simply fail.) -/
def parseFloatString (s : String) : Option PyFloat :=
  match trimChars s.toList with
  | '-' :: rest => (parseDecimalChars rest).map PyFloat.neg
  | '+' :: rest => parseDecimalChars rest
  | cs => parseDecimalChars cs

/-- The Python builtin `float(v)`: numbers convert by value
(`float(True) = 1.0`), strings are parsed, `None` raises `TypeError`,
unparsable strings raise `ValueError`. -/
def pyFloat : PyVal → Except String PyFloat
  | PyVal.none => Except.error "TypeError: float() argument must not be None"
  | PyVal.str s =>
    match parseFloatString s with
    | Option.some f => Except.ok f
    | Option.none => Except.error "ValueError: could not convert string to float"
  | PyVal.float f => Except.ok f
  | PyVal.bool b => Except.ok (PyFloat.val (if b then 1 else 0) 0)
  | PyVal.int n => Except.ok (PyFloat.val n 0)

example : pyFloat (PyVal.str "0.0924") = Except.ok (PyFloat.val 924 4) := by rfl
example : pyFloat (PyVal.str "0") = Except.ok (PyFloat.val 0 0) := by rfl
example : pyFloat (PyVal.str "14.54") = Except.ok (PyFloat.val 1454 2) := by rfl
example : pyFloat (PyVal.str "nan") = Except.ok PyFloat.nan := by rfl
example : pyTruthy (PyVal.float PyFloat.nan) = true := by rfl
example : pyFloatRepr (PyFloat.val 1684 2) = "16.84" := by rfl

/-- A timestamp value, as produced by the external timestamp-parsing
contract.  Seconds are carried internally (the spec notes the underlying
timestamp may hold second-level precision) but never displayed. -/
structure PyDateTime where
  year : Nat
  month : Nat
  day : Nat
  hour : Nat
  minute : Nat
  second : Nat
deriving DecidableEq, Repr

/-- Month-abbreviation table of the calendar input format. -/
def monthNum (m : String) : Option Nat :=
  if m = "Jan" then Option.some 1
  else if m = "Feb" then Option.some 2
  else if m = "Mar" then Option.some 3
  else if m = "Apr" then Option.some 4
  else if m = "May" then Option.some 5
  else if m = "Jun" then Option.some 6
  else if m = "Jul" then Option.some 7
  else if m = "Aug" then Option.some 8
  else if m = "Sep" then Option.some 9
  else if m = "Oct" then Option.some 10
  else if m = "Nov" then Option.some 11
  else if m = "Dec" then Option.some 12
  else Option.none

/-- A nonempty all-digit character group, read as a number. -/
def digitField (cs : List Char) : Option Nat :=
  if !cs.isEmpty && allDigits cs then Option.some (digitsToNat cs)
  else Option.none

/-- Modelled from the spec: the external timestamp-parsing contract
`cd_to_datetime` (helpers module, not among the provided sources) maps a
date-like input in the calendar format `YYYY-Mon-DD HH:MM` (e.g.
`1900-Dec-27 01:30`) to a timestamp value; parse failures are this
contract's own failure mode, not handled by the entity constructors. -/
def cd_to_datetime (v : PyVal) : Except String PyDateTime :=
  match v with
  | PyVal.str s =>
    match splitOnChar ' ' s.toList with
    | [d, t] =>
      match splitOnChar '-' d, splitOnChar ':' t with
      | [y, mon, day], [h, mi] =>
        match digitField y, monthNum (String.mk mon), digitField day,
            digitField h, digitField mi with
        | Option.some yv, Option.some mv, Option.some dv,
            Option.some hv, Option.some miv =>
          Except.ok (PyDateTime.mk yv mv dv hv miv 0)
        | _, _, _, _, _ =>
          Except.error "ValueError: time data does not match format"
      | _, _ => Except.error "ValueError: time data does not match format"
    | _ => Except.error "ValueError: time data does not match format"
  | _ => Except.error "TypeError: strptime argument must be str"

/-- Modelled from the spec: the external timestamp-formatting contract
`datetime_to_str` (helpers module, not among the provided sources) maps a
timestamp value to the fixed minute-precision display form
`YYYY-MM-DD HH:MM`, never showing seconds. -/
def datetime_to_str (d : PyDateTime) : String :=
  padZero 4 (toString d.year) ++ "-" ++ padZero 2 (toString d.month) ++ "-"
    ++ padZero 2 (toString d.day) ++ " " ++ padZero 2 (toString d.hour)
    ++ ":" ++ padZero 2 (toString d.minute)

example : cd_to_datetime (PyVal.str "1900-Dec-27 01:30")
    = Except.ok (PyDateTime.mk 1900 12 27 1 30 0) := by rfl
example : datetime_to_str (PyDateTime.mk 1900 12 27 1 30 0)
    = "1900-12-27 01:30" := by rfl

/-!
The two entity classes of models.py are mutually referential exactly as in
the source: a `NearEarthObject` holds an (initially empty) list of its
close approaches, and a `CloseApproach` holds an optional reference to its
NEO (initially `None`, set later by the `NEODatabase` linking step, which
is outside the provided sources).  Field order follows the assignment
order of each `__init__`.
-/
mutual

/-- A near-Earth object (models.py `NearEarthObject`): designation, name,
diameter, hazardous flag, linked approaches. -/
inductive NearEarthObject where
  | mk : String → Option String → PyFloat → Bool → List CloseApproach →
      NearEarthObject

/-- A close approach to Earth by an NEO (models.py `CloseApproach`):
private designation, approach time, distance, velocity, linked NEO. -/
inductive CloseApproach where
  | mk : String → PyDateTime → PyFloat → PyFloat → Option NearEarthObject →
      CloseApproach

end

/-- Attribute `self.designation` of a `NearEarthObject`. -/
def NearEarthObject.designation : NearEarthObject → String
  | NearEarthObject.mk d _ _ _ _ => d

/-- Attribute `self.name` of a `NearEarthObject` (`Option.none` models the
Python value `None`). -/
def NearEarthObject.name : NearEarthObject → Option String
  | NearEarthObject.mk _ n _ _ _ => n

/-- Attribute `self.diameter` of a `NearEarthObject`. -/
def NearEarthObject.diameter : NearEarthObject → PyFloat
  | NearEarthObject.mk _ _ dia _ _ => dia

/-- Attribute `self.hazardous` of a `NearEarthObject`. -/
def NearEarthObject.hazardous : NearEarthObject → Bool
  | NearEarthObject.mk _ _ _ h _ => h

/-- Attribute `self.approaches` of a `NearEarthObject`. -/
def NearEarthObject.approaches : NearEarthObject → List CloseApproach
  | NearEarthObject.mk _ _ _ _ a => a

/-- Private attribute `self._designation` of a `CloseApproach`. -/
def CloseApproach.designationPriv : CloseApproach → String
  | CloseApproach.mk d _ _ _ _ => d

/-- Attribute `self.time` of a `CloseApproach`. -/
def CloseApproach.time : CloseApproach → PyDateTime
  | CloseApproach.mk _ t _ _ _ => t

/-- Attribute `self.distance` of a `CloseApproach`. -/
def CloseApproach.distance : CloseApproach → PyFloat
  | CloseApproach.mk _ _ d _ _ => d

/-- Attribute `self.velocity` of a `CloseApproach`. -/
def CloseApproach.velocity : CloseApproach → PyFloat
  | CloseApproach.mk _ _ _ v _ => v

/-- Attribute `self.neo` of a `CloseApproach`. -/
def CloseApproach.neo : CloseApproach → Option NearEarthObject
  | CloseApproach.mk _ _ _ _ n => n

/-- The f-string / `format` rendering of the stored `name` attribute:
Python formats the value `None` as the literal text `None`, and a string
as itself. -/
def formatNameAttr : Option String → String
  | Option.none => "None"
  | Option.some s => s

/-- `NearEarthObject.__init__` (models.py lines 36-50).  Parameters mirror
the Python signature; `Option.none` in a parameter position means the
argument was not supplied, in which case the Python default applies
(`name=None`, `diameter=float('nan')`, `hazardous=False`); an unsupplied
required `designation` is the Python `TypeError` for a missing positional
argument.  The body follows the assignment order of the source:
`str(designation)`; `str(name) if name else None`;
`float(diameter) if diameter else float('nan')`;
`True if hazardous == 'Y' else False`; `approaches = []`. -/
def NearEarthObject.init (designation name diameter hazardous : Option PyVal) :
    Except String NearEarthObject :=
  match designation with
  | Option.none =>
    Except.error "TypeError: missing required positional argument designation"
  | Option.some desv =>
    let namev := name.getD PyVal.none
    let diav := diameter.getD (PyVal.float PyFloat.nan)
    let hazv := hazardous.getD (PyVal.bool false)
    let des := pyStr desv
    let nm := if pyTruthy namev then Option.some (pyStr namev) else Option.none
    match (if pyTruthy diav then pyFloat diav else Except.ok PyFloat.nan) with
    | Except.error e => Except.error e
    | Except.ok dia =>
      Except.ok (NearEarthObject.mk des nm dia (pyEqStr hazv "Y") [])

/-- `CloseApproach.__init__` (models.py lines 107-121).  Parameters mirror
the Python signature (`time, distance, velocity, neo, designation`);
`Option.none` means the argument was not supplied, in which case the
Python default applies (`distance=float('nan')`, `velocity=float('nan')`,
`neo=None`, `designation=None`); an unsupplied required `time` is the
Python `TypeError` for a missing positional argument.  The body follows
the assignment order of the source:
`str(designation) if designation else ''`; `cd_to_datetime(time)`;
`float(distance)`; `float(velocity)`; `neo` stored as given. -/
def CloseApproach.init (time distance velocity : Option PyVal)
    (neo : Option NearEarthObject) (designation : Option PyVal) :
    Except String CloseApproach :=
  match time with
  | Option.none =>
    Except.error "TypeError: missing required positional argument time"
  | Option.some timev =>
    let distv := distance.getD (PyVal.float PyFloat.nan)
    let velv := velocity.getD (PyVal.float PyFloat.nan)
    let desv := designation.getD PyVal.none
    let desPriv := if pyTruthy desv then pyStr desv else ""
    match cd_to_datetime timev with
    | Except.error e => Except.error e
    | Except.ok t =>
      match pyFloat distv with
      | Except.error e => Except.error e
      | Except.ok dist =>
        match pyFloat velv with
        | Except.error e => Except.error e
        | Except.ok vel => Except.ok (CloseApproach.mk desPriv t dist vel neo)

/-- The `fullname` property (models.py lines 52-55):
`f'{self.designation} {self.name}'`. -/
def NearEarthObject.fullname (o : NearEarthObject) : String :=
  o.designation ++ " " ++ formatNameAttr o.name

/-- The `time_str` property (models.py lines 123-138):
`datetime_to_str(self.time)`. -/
def CloseApproach.time_str (c : CloseApproach) : String :=
  datetime_to_str c.time

/-- Python dict item assignment `d[k] = v` on an insertion-ordered
association list: overwrite in place when the key is present, otherwise
append at the end. -/
def dictSet (d : List (String × PyVal)) (k : String) (v : PyVal) :
    List (String × PyVal) :=
  if d.any (fun p => p.1 == k) then
    d.map (fun p => if p.1 == k then (k, v) else p)
  else d ++ [(k, v)]

/-- `NearEarthObject.serialize` (models.py lines 72-90): builds an empty
dict, then assigns `name` (empty string when the attribute is `None`, else
the formatted name), `designation`, `diameter_km`, `potentially_hazardous`
in that order. -/
def NearEarthObject.serialize (o : NearEarthObject) : List (String × PyVal) :=
  let d0 : List (String × PyVal) := []
  let d1 := match o.name with
    | Option.none => dictSet d0 "name" (PyVal.str "")
    | Option.some n => dictSet d0 "name" (PyVal.str n)
  let d2 := dictSet d1 "designation" (PyVal.str o.designation)
  let d3 := dictSet d2 "diameter_km" (PyVal.float o.diameter)
  dictSet d3 "potentially_hazardous" (PyVal.bool o.hazardous)

/-- `CloseApproach.serialize` (models.py lines 155-170): builds an empty
dict, then assigns `datetime_utc` (the formatted `time_str`),
`distance_au`, `velocity_km_s` in that order. -/
def CloseApproach.serialize (c : CloseApproach) : List (String × PyVal) :=
  let d0 : List (String × PyVal) := []
  let d1 := dictSet d0 "datetime_utc" (PyVal.str c.time_str)
  let d2 := dictSet d1 "distance_au" (PyVal.float c.distance)
  dictSet d2 "velocity_km_s" (PyVal.float c.velocity)

/-- State-passing embedding of the `fullname` property body: the method
reads `self.designation` and `self.name` and returns the formatted string
together with the post-state of `self`; the body contains no attribute
assignment, so the post-state is the received object unchanged. -/
def NearEarthObject.fullnameM (self : NearEarthObject) :
    String × NearEarthObject :=
  (self.designation ++ " " ++ formatNameAttr self.name, self)

/-- State-passing embedding of `NearEarthObject.serialize`: the body
mutates only the local dict `neo_dict`, never `self`, so the post-state is
the received object unchanged. -/
def NearEarthObject.serializeM (self : NearEarthObject) :
    List (String × PyVal) × NearEarthObject :=
  let d0 : List (String × PyVal) := []
  let d1 := match self.name with
    | Option.none => dictSet d0 "name" (PyVal.str "")
    | Option.some n => dictSet d0 "name" (PyVal.str n)
  let d2 := dictSet d1 "designation" (PyVal.str self.designation)
  let d3 := dictSet d2 "diameter_km" (PyVal.float self.diameter)
  (dictSet d3 "potentially_hazardous" (PyVal.bool self.hazardous), self)

/-- State-passing embedding of `CloseApproach.serialize`: the body mutates
only the local dict `approach_dict`, never `self`, so the post-state is
the received object unchanged. -/
def CloseApproach.serializeM (self : CloseApproach) :
    List (String × PyVal) × CloseApproach :=
  let d0 : List (String × PyVal) := []
  let d1 := dictSet d0 "datetime_utc" (PyVal.str self.time_str)
  let d2 := dictSet d1 "distance_au" (PyVal.float self.distance)
  (dictSet d2 "velocity_km_s" (PyVal.float self.velocity), self)

example :
    (NearEarthObject.init (Option.some (PyVal.str "433"))
      (Option.some (PyVal.str "Eros")) (Option.some (PyVal.str "16.84"))
      (Option.some (PyVal.str "N")))
    = Except.ok (NearEarthObject.mk "433" (Option.some "Eros")
        (PyFloat.val 1684 2) false []) := by rfl

example :
    (CloseApproach.init (Option.some (PyVal.str "1900-Dec-27 01:30"))
      (Option.some (PyVal.str "0.0924")) (Option.some (PyVal.str "14.54"))
      Option.none (Option.some (PyVal.str "433"))).map CloseApproach.serialize
    = Except.ok [("datetime_utc", PyVal.str "1900-12-27 01:30"),
        ("distance_au", PyVal.float (PyFloat.val 924 4)),
        ("velocity_km_s", PyVal.float (PyFloat.val 1454 2))] := by rfl

/-! Helper lemmas: the canonical string form of a truthy value is never
the empty string (used to settle the name-normalization claim). -/

/-- `Nat.toDigitsCore` never shrinks its accumulator. -/
theorem toDigitsCore_len_ge (b : Nat) :
    ∀ (f n : Nat) (l : List Char),
      l.length ≤ (Nat.toDigitsCore b f n l).length := by
  intro f
  induction f with
  | zero => intro n l; simp [Nat.toDigitsCore]
  | succ f ih =>
    intro n l
    simp only [Nat.toDigitsCore]
    split
    · simp
    · exact le_trans (by simp) (ih _ _)

/-- With positive fuel, `Nat.toDigitsCore` emits at least one digit. -/
theorem toDigitsCore_len_gt (b f n : Nat) (l : List Char) (h : 0 < f) :
    l.length < (Nat.toDigitsCore b f n l).length := by
  cases f with
  | zero => exact absurd h (lt_irrefl 0)
  | succ f =>
    simp only [Nat.toDigitsCore]
    split
    · simp
    · exact lt_of_lt_of_le (by simp) (toDigitsCore_len_ge b f _ _)

/-- The decimal representation of a natural number is never empty. -/
theorem nat_repr_ne_empty (n : Nat) : Nat.repr n ≠ "" := by
  intro hemp
  have h := toDigitsCore_len_gt 10 (n + 1) n [] (Nat.succ_pos n)
  have hz : (Nat.repr n).length = 0 := by rw [hemp]; rfl
  have hr : (Nat.repr n).length = (Nat.toDigitsCore 10 (n + 1) n []).length := by
    rfl
  rw [hr] at hz
  simp [hz] at h

/-- The decimal representation of an integer is never empty. -/
theorem int_repr_ne_empty (n : Int) : toString n ≠ "" := by
  cases n with
  | ofNat m => exact nat_repr_ne_empty m
  | negSucc m =>
    intro hemp
    have : ("-" ++ Nat.repr (m + 1)).length = 0 := by
      rw [show ("-" ++ Nat.repr (m + 1)) = toString (Int.negSucc m) from rfl,
        hemp]
      rfl
    simp only [String.length_append] at this
    rw [show ("-").length = 1 from rfl] at this
    omega

/-- The rendering of a decimal float body is never empty. -/
theorem decimalString_ne_empty (n e : Nat) : decimalString n e ≠ "" := by
  intro hemp
  have : (decimalString n e).length = 0 := by rw [hemp]; rfl
  unfold decimalString at this
  split at this
  · simp only [String.length_append] at this
    rw [show (".0").length = 2 from rfl] at this
    omega
  · simp only [String.length_append] at this
    rw [show (".").length = 1 from rfl] at this
    omega

/-- The rendering of a float value is never empty. -/
theorem pyFloatRepr_ne_empty (f : PyFloat) : pyFloatRepr f ≠ "" := by
  cases f with
  | nan => intro h; exact absurd h (by decide)
  | val m e =>
    intro hemp
    have : (pyFloatRepr (PyFloat.val m e)).length = 0 := by rw [hemp]; rfl
    simp only [pyFloatRepr, String.length_append] at this
    exact decimalString_ne_empty m.natAbs e (by
      have : (decimalString m.natAbs e).length = 0 := by omega
      cases hd : decimalString m.natAbs e with
      | mk data => cases data with
        | nil => rfl
        | cons c cs => rw [hd] at this; simp [String.length] at this)

/-- The canonical string form of a truthy Python value is nonempty. -/
theorem pyStr_ne_empty_of_truthy (v : PyVal) (h : pyTruthy v = true) :
    pyStr v ≠ "" := by
  cases v with
  | none => exact absurd h (by decide)
  | str s =>
    simp only [pyTruthy, Bool.not_eq_true'] at h
    intro hemp
    rw [show pyStr (PyVal.str s) = s from rfl] at hemp
    rw [hemp] at h
    exact absurd h (by decide)
  | float f => exact pyFloatRepr_ne_empty f
  | bool b => cases b with
    | false => exact absurd h (by decide)
    | true => exact fun hemp => absurd hemp (by decide)
  | int n => exact int_repr_ne_empty n

/-- C1: the claim states that `fullname` returns the designation alone
when `name` is null and never renders the literal text `None`.  The code
(`f'{self.designation} {self.name}'`, models.py line 55) instead formats
the `None` value into the output: constructing with designation `433` and
no name and taking `fullname` yields the string `433 None`, diverging from
the claimed `433`.  (With a name present the code does join designation
and name with a single space: the second conjunct shows `433 Eros`.) -/
theorem fullname_renders_literal_none :
    (NearEarthObject.init (Option.some (PyVal.str "433")) Option.none
        Option.none Option.none).map NearEarthObject.fullname
      = Except.ok "433 None"
    ∧ (NearEarthObject.init (Option.some (PyVal.str "433"))
        (Option.some (PyVal.str "Eros")) Option.none Option.none).map
        NearEarthObject.fullname
      = Except.ok "433 Eros" := by
  exact ⟨rfl, rfl⟩

/-- C2 counterexample: constructing with the empty-string designation
succeeds, and the stored designation is the empty string — refuting the
claim that a successfully constructed `NearEarthObject` never has an
empty designation. -/
theorem empty_designation_constructs :
    NearEarthObject.init (Option.some (PyVal.str "")) Option.none Option.none
      Option.none
    = Except.ok (NearEarthObject.mk "" Option.none PyFloat.nan false []) := by
  rfl

/-- C2 (amended): construction fails exactly when the designation argument
is absent from the call (the missing-positional-argument `TypeError`); a
supplied designation is never silently defaulted but stored as its
canonical string form, so the stored designation is never null (it is
always a string) though it may be the empty string. -/
theorem designation_absent_fails_else_stringified
    (name diameter hazardous : Option PyVal) :
    (∃ e, NearEarthObject.init Option.none name diameter hazardous
      = Except.error e)
    ∧ ∀ d o, NearEarthObject.init (Option.some d) name diameter hazardous
        = Except.ok o → o.designation = pyStr d := by
  constructor
  · exact ⟨_, rfl⟩
  · intro d o h
    simp only [NearEarthObject.init] at h
    split at h
    · exact absurd h (by simp)
    · cases h
      rfl

/-- Witness for the amended C2 at designation `433`. -/
theorem designation_absent_fails_else_stringified_witness :
    (NearEarthObject.mk "433" Option.none PyFloat.nan false []).designation
      = pyStr (PyVal.str "433") :=
  (designation_absent_fails_else_stringified Option.none Option.none
    Option.none).2 (PyVal.str "433")
    (NearEarthObject.mk "433" Option.none PyFloat.nan false []) rfl

/-- C3: for every raw designation and every raw hazardous input, the
stored hazardous flag is the result of the exact comparison with the
string `Y`, and that comparison is true iff the raw value is exactly the
string `Y` — so `N`, the empty string and the boolean true all normalize
to false. -/
theorem hazardous_true_iff_raw_is_exactly_Y (des haz : PyVal) :
    ((NearEarthObject.init (Option.some des) Option.none Option.none
        (Option.some haz)).map NearEarthObject.hazardous
      = Except.ok (pyEqStr haz "Y"))
    ∧ (pyEqStr haz "Y" = true ↔ haz = PyVal.str "Y") := by
  refine ⟨rfl, ?_⟩
  cases haz <;> simp [pyEqStr]

/-- C4: for every `NearEarthObject`, `serialize` is exactly the
four-entry mapping `name` (the empty string when the name attribute is
null, never null), `designation` (a string), `diameter_km` (the stored
float, possibly NaN), `potentially_hazardous` (the stored boolean), in
that key order with no extra keys. -/
theorem neo_serialize_exact_four_keys (o : NearEarthObject) :
    o.serialize = [("name", PyVal.str (o.name.getD "")),
      ("designation", PyVal.str o.designation),
      ("diameter_km", PyVal.float o.diameter),
      ("potentially_hazardous", PyVal.bool o.hazardous)]
    ∧ o.serialize.map Prod.fst
      = ["name", "designation", "diameter_km", "potentially_hazardous"] := by
  cases o with
  | mk des nm dia hz app => cases nm <;> exact ⟨rfl, rfl⟩

/-- C5: the constructed diameter is the NaN sentinel when the raw diameter
is absent or falsy, and the float conversion of the raw value when it is
truthy; normalization never raises for an absent diameter (the first
conjunct is a successful construction). -/
theorem diameter_falsy_nan_truthy_converted (des v : PyVal) :
    ((NearEarthObject.init (Option.some des) Option.none Option.none
        Option.none).map NearEarthObject.diameter = Except.ok PyFloat.nan)
    ∧ (pyTruthy v = false →
        (NearEarthObject.init (Option.some des) Option.none (Option.some v)
          Option.none).map NearEarthObject.diameter = Except.ok PyFloat.nan)
    ∧ (pyTruthy v = true →
        (NearEarthObject.init (Option.some des) Option.none (Option.some v)
          Option.none).map NearEarthObject.diameter = pyFloat v) := by
  refine ⟨rfl, ?_, ?_⟩
  · intro h
    simp [NearEarthObject.init, h, Except.map]
    rfl
  · intro h
    cases hv : pyFloat v with
    | error e => simp [NearEarthObject.init, h, hv, Except.map]
    | ok f =>
      simp [NearEarthObject.init, h, hv, Except.map,
        NearEarthObject.diameter]

/-- Witness for C5 at the falsy raw diameter `""` (the empty string). -/
theorem diameter_falsy_nan_truthy_converted_witness :
    pyTruthy (PyVal.str "") = false
    ∧ (NearEarthObject.init (Option.some (PyVal.str "433")) Option.none
        (Option.some (PyVal.str "")) Option.none).map
        NearEarthObject.diameter = Except.ok PyFloat.nan :=
  ⟨rfl, (diameter_falsy_nan_truthy_converted (PyVal.str "433")
    (PyVal.str "")).2.1 rfl⟩

/-- C6: the stored name is the canonical string form of the raw name when
the raw value is truthy and null otherwise (also null when the argument is
absent), and it is never the empty string. -/
theorem name_truthy_string_else_null (des nm : PyVal) :
    ((NearEarthObject.init (Option.some des) (Option.some nm) Option.none
        Option.none).map NearEarthObject.name
      = Except.ok (if pyTruthy nm then Option.some (pyStr nm)
          else Option.none))
    ∧ ((NearEarthObject.init (Option.some des) Option.none Option.none
        Option.none).map NearEarthObject.name = Except.ok Option.none)
    ∧ ∀ o, NearEarthObject.init (Option.some des) (Option.some nm)
        Option.none Option.none = Except.ok o → o.name ≠ Option.some "" := by
  refine ⟨rfl, rfl, ?_⟩
  intro o h
  rw [show NearEarthObject.init (Option.some des) (Option.some nm)
      Option.none Option.none
    = Except.ok (NearEarthObject.mk (pyStr des)
        (if pyTruthy nm then Option.some (pyStr nm) else Option.none)
        PyFloat.nan false []) from rfl] at h
  cases h
  show (if pyTruthy nm then Option.some (pyStr nm) else Option.none)
    ≠ Option.some ""
  split
  · intro hc
    injection hc with hc2
    exact pyStr_ne_empty_of_truthy nm (by assumption) hc2
  · simp

/-- Witness for C6 at raw name `"Eros"`. -/
theorem name_truthy_string_else_null_witness :
    (NearEarthObject.mk "433" (Option.some "Eros") PyFloat.nan false []).name
      ≠ Option.some "" :=
  (name_truthy_string_else_null (PyVal.str "433") (PyVal.str "Eros")).2.2
    (NearEarthObject.mk "433" (Option.some "Eros") PyFloat.nan false []) rfl

/-- C7: for every `CloseApproach`, `serialize` is exactly the three-entry
mapping `datetime_utc` (the display form of the approach time),
`distance_au`, `velocity_km_s`, in that key order with no extra keys,
and its output never depends on the linked NEO reference. -/
theorem approach_serialize_exact_three_keys (c : CloseApproach) :
    (c.serialize = [("datetime_utc", PyVal.str (datetime_to_str c.time)),
      ("distance_au", PyVal.float c.distance),
      ("velocity_km_s", PyVal.float c.velocity)])
    ∧ c.serialize.map Prod.fst
      = ["datetime_utc", "distance_au", "velocity_km_s"]
    ∧ ∀ (d : String) (t : PyDateTime) (dist vel : PyFloat)
        (n1 n2 : Option NearEarthObject),
        (CloseApproach.mk d t dist vel n1).serialize
          = (CloseApproach.mk d t dist vel n2).serialize := by
  refine ⟨?_, ?_, ?_⟩
  · cases c; rfl
  · cases c; rfl
  · intro d t dist vel n1 n2; rfl

/-- C8: construction never raises for optional-field absence: an object
built with only a designation has null name, NaN diameter, false
hazardous flag and an empty approaches list, and an event built with only
a (parseable) time has NaN distance and velocity, the empty string as its
private designation, and a null NEO reference. -/
theorem optional_absence_never_raises (des t : PyVal) (d : PyDateTime)
    (ht : cd_to_datetime t = Except.ok d) :
    (NearEarthObject.init (Option.some des) Option.none Option.none
        Option.none
      = Except.ok (NearEarthObject.mk (pyStr des) Option.none PyFloat.nan
          false []))
    ∧ (CloseApproach.init (Option.some t) Option.none Option.none
        Option.none Option.none
      = Except.ok (CloseApproach.mk "" d PyFloat.nan PyFloat.nan
          Option.none)) := by
  refine ⟨rfl, ?_⟩
  simp only [CloseApproach.init]
  rw [ht]
  rfl

/-- Witness for C8 at the spec's example timestamp. -/
theorem optional_absence_never_raises_witness :
    CloseApproach.init (Option.some (PyVal.str "1900-Dec-27 01:30"))
      Option.none Option.none Option.none Option.none
    = Except.ok (CloseApproach.mk "" (PyDateTime.mk 1900 12 27 1 30 0)
        PyFloat.nan PyFloat.nan Option.none) :=
  (optional_absence_never_raises (PyVal.str "433")
    (PyVal.str "1900-Dec-27 01:30") (PyDateTime.mk 1900 12 27 1 30 0)
    rfl).2

/-- C9: the derived accessors and serializers are read-only: in the
state-passing embeddings of `fullname` and the two `serialize` methods,
the post-state equals the received object, and the returned values agree
with the pure method embeddings. -/
theorem accessors_leave_state_unchanged (o : NearEarthObject)
    (c : CloseApproach) :
    (o.fullnameM.2 = o ∧ o.fullnameM.1 = o.fullname)
    ∧ (o.serializeM.2 = o ∧ o.serializeM.1 = o.serialize)
    ∧ (c.serializeM.2 = c ∧ c.serializeM.1 = c.serialize) :=
  ⟨⟨rfl, rfl⟩, ⟨rfl, rfl⟩, ⟨rfl, rfl⟩⟩

/-- C10: zero is preserved for approach fields but not for the object's
diameter: a `CloseApproach` built with raw distance and velocity equal to
the integer zero or the string `0` stores exactly the float zero (whose
rational value is 0, and which is not NaN), while a `NearEarthObject`
built with a falsy numeric-zero raw diameter stores NaN. -/
theorem zero_kept_for_approach_not_diameter (t v w : PyVal) (d : PyDateTime)
    (ht : cd_to_datetime t = Except.ok d)
    (hv : v = PyVal.int 0 ∨ v = PyVal.str "0")
    (hw : w = PyVal.int 0 ∨ w = PyVal.float (PyFloat.val 0 0)) :
    ((CloseApproach.init (Option.some t) (Option.some v) (Option.some v)
        Option.none Option.none).map
        (fun c => (c.distance, c.velocity))
      = Except.ok (PyFloat.val 0 0, PyFloat.val 0 0))
    ∧ (PyFloat.val 0 0).toRat = Option.some 0
    ∧ PyFloat.val 0 0 ≠ PyFloat.nan
    ∧ ((NearEarthObject.init (Option.some (PyVal.str "433")) Option.none
        (Option.some w) Option.none).map NearEarthObject.diameter
      = Except.ok PyFloat.nan) := by
  refine ⟨?_, by simp [PyFloat.toRat], by simp, ?_⟩
  · rcases hv with h | h <;> subst h <;>
      (simp only [CloseApproach.init]; rw [ht]; rfl)
  · rcases hw with h | h <;> subst h <;> rfl

/-- Witness for C10 at the spec's example timestamp, raw approach fields
`"0"`, and raw diameter the integer zero. -/
theorem zero_kept_for_approach_not_diameter_witness :
    (CloseApproach.init (Option.some (PyVal.str "1900-Dec-27 01:30"))
      (Option.some (PyVal.str "0")) (Option.some (PyVal.str "0"))
      Option.none Option.none).map (fun c => (c.distance, c.velocity))
    = Except.ok (PyFloat.val 0 0, PyFloat.val 0 0) :=
  (zero_kept_for_approach_not_diameter (PyVal.str "1900-Dec-27 01:30")
    (PyVal.str "0") (PyVal.int 0) (PyDateTime.mk 1900 12 27 1 30 0) rfl
    (Or.inr rfl) (Or.inl rfl)).1
